import Mathlib

/-!
Shallow embedding of the Rpi-Main wearable audio logger and proofs of the
spec claims about it. Python floats are modelled as rationals (ℚ): every
comparison in the claims is a threshold test far from any float rounding
boundary, and the constants involved (0.05, 0.2, 27.5, 0.1, 0.0003,
0.00006) are used only through such comparisons.
-/

namespace Amulet

/-! ## Wear detection (src/worn_det.py) -/

/-- The five wear states returned by `WearableDetector.get_wear_status`
(the string literals of the source, as an enum). -/
inductive WearState where
  | worn_active        -- "WORN (Moving + Warm)"
  | possibly_worn      -- "POSSIBLY WORN (Warming Up + Motion)"
  | ambient_motion     -- "AMBIENT MOTION (Motion, but Cold)"
  | not_worn           -- "NOT WORN"
  | recently_removed   -- "RECENTLY REMOVED (Cooling)"
  deriving DecidableEq, Repr, Fintype

/-- `ACC_STD_THRESHOLD = 0.05` m/s^2. -/
def ACC_STD_THRESHOLD : ℚ := 5 / 100

/-- `GYRO_STD_THRESHOLD = 0.2` deg/sec. -/
def GYRO_STD_THRESHOLD : ℚ := 2 / 10

/-- `WearableDetector.analyze_motion`, reduced to its inputs: the standard
deviations of the acceleration-magnitude and gyro-magnitude windows.
Returns `(accel_std > ACC_STD_THRESHOLD) or (gyro_std > GYRO_STD_THRESHOLD)`. -/
def analyze_motion (accel_std gyro_std : ℚ) : Bool :=
  decide (accel_std > ACC_STD_THRESHOLD) || decide (gyro_std > GYRO_STD_THRESHOLD)

/-- `WearableDetector.is_temp_consistent_with_skin`: `temp_celsius > 27.5`. -/
def is_temp_consistent_with_skin (temp_celsius : ℚ) : Bool :=
  decide (temp_celsius > 55 / 2)

/-- The decision core of `WearableDetector.get_wear_status`, as a function of
the window statistics it computes (accel std, gyro std, the temperature
reading, and the temperature slope from `get_temp_slope`). -/
def get_wear_status (accel_std gyro_std temp temp_slope : ℚ) : WearState :=
  let moving := analyze_motion accel_std gyro_std
  let warm := is_temp_consistent_with_skin temp
  if moving then
    if warm then .worn_active
    else if temp_slope > 1 / 10 then .possibly_worn
    else .ambient_motion
  else
    if temp_slope < -(1 / 10) then .recently_removed
    else .not_worn

/-- The §4.4 decision table exactly as the spec words it, first match wins:
motion∧warm ⇒ WORN_ACTIVE; motion∧¬warm∧slope>0.1 ⇒ POSSIBLY_WORN;
motion∧¬warm∧slope≤0.1 ⇒ AMBIENT_MOTION; ¬motion∧slope<−0.1 ⇒
RECENTLY_REMOVED; otherwise NOT_WORN, with motion = accel_std>0.05 ∨
gyro_std>0.2 and warm = temp>27.5. -/
def wear_table_spec (accel_std gyro_std temp slope : ℚ) : WearState :=
  let motion : Prop := accel_std > 5 / 100 ∨ gyro_std > 2 / 10
  let warm : Prop := temp > 55 / 2
  if motion ∧ warm then .worn_active
  else if motion ∧ ¬warm ∧ slope > 1 / 10 then .possibly_worn
  else if motion ∧ ¬warm ∧ slope ≤ 1 / 10 then .ambient_motion
  else if ¬motion ∧ slope < -(1 / 10) then .recently_removed
  else .not_worn

/-- `WearableDetector.get_temp_slope`, over the temperature history deque as a
list of (unix-time-seconds, temperature) pairs, oldest first. Fewer than 2
entries or zero elapsed time yield 0.0; otherwise (latest − oldest
temperature) / elapsed minutes. The `getD` defaults are unreachable when the
length guard fails. -/
def get_temp_slope (hist : List (ℚ × ℚ)) : ℚ :=
  if hist.length < 2 then 0
  else
    let p0 := hist.headD (0, 0)
    let p1 := hist.getLast?.getD (0, 0)
    let delta_t := (p1.1 - p0.1) / 60
    let delta_temp := p1.2 - p0.2
    if delta_t = 0 then 0 else delta_temp / delta_t

/-- `WearableDetector.STATUS_DICT`: the boolean "is worn" reading of each
state. -/
def bool_status_of : WearState → Bool
  | .worn_active => true
  | .possibly_worn => true
  | .ambient_motion => false
  | .not_worn => false
  | .recently_removed => false

/-! ## Orchestrator cycle (src/amulet_main.py, main loop) -/

/-- The action the orchestrator cycle takes on the wear detector. -/
inductive DetectorAction where
  | start
  | stop
  | none
  deriving DecidableEq, Repr

/-- One pass of the mode-handling block at the top of `main`'s loop
(src/amulet_main.py lines 172–198): from the OLED mode index, the detector's
`bool_status` and the current `detection_active` flag, compute the new
`should_record` gate, the new `detection_active` flag and the detector
start/stop call issued. -/
def orchestrator_cycle (mode_idx : Fin 3) (bool_status detection_active : Bool) :
    Bool × Bool × DetectorAction :=
  if mode_idx = 0 then
    (true, true, if detection_active then .none else .start)
  else if mode_idx = 1 then
    (bool_status, true, if detection_active then .none else .start)
  else
    (false, false, if detection_active then .stop else .none)

/-! ## Speech classifier (src/speech_det.py) -/

/-- Exception kinds raised by the library calls this model covers. Python
exceptions are modelled as `Except` errors; a handler that re-raises is a
function returning the same error. -/
inductive Exn where
  | valueError (msg : String)   -- e.g. ValueError("Unsupported sample width")
  | connectionError              -- requests.ConnectionError
  | readTimeout                  -- requests.exceptions.ReadTimeout (a Timeout, NOT a ConnectionError)
  deriving DecidableEq, Repr

/-- `np.diff`: adjacent differences of a signal. -/
def diffs : List ℚ → List ℚ
  | a :: b :: rest => (b - a) :: diffs (b :: rest)
  | _ => []

/-- `np.mean` of a rational list (callers guard against the empty case). -/
def list_mean (l : List ℚ) : ℚ := l.sum / l.length

/-- The square of `compute_rms`: `compute_rms(signal) = sqrt(mean(signal**2))`
with 0.0 on an empty signal. Squares are kept so the definition stays in ℚ;
the comparison `compute_rms > θ` is recovered as `compute_rms_sq > θ^2` (both
sides nonnegative), proved against `Real.sqrt` below. -/
def compute_rms_sq (signal : List ℚ) : ℚ :=
  if signal.length = 0 then 0
  else list_mean (signal.map (fun x => x ^ 2))

/-- `compute_delta`: mean absolute sample-to-sample difference, 0.0 for
signals shorter than 2 samples. -/
def compute_delta (signal : List ℚ) : ℚ :=
  if signal.length < 2 then 0
  else list_mean ((diffs signal).map (fun x => |x|))

/-- `detect_speech`'s default `energy_threshold=0.0003`. -/
def energy_threshold : ℚ := 3 / 10000

/-- `detect_speech`'s default `delta_threshold=0.00006`. -/
def delta_threshold : ℚ := 6 / 100000

/-- The per-frame test of `detect_speech`'s loop:
`rms > energy_threshold and delta > delta_threshold`, with the RMS comparison
in squared form. -/
def frame_speech_like (frame : List ℚ) : Bool :=
  decide (compute_rms_sq frame > energy_threshold ^ 2) &&
    decide (compute_delta frame > delta_threshold)

/-- The normalization branch of `detect_speech`: 32-bit samples are divided by
2147483647, 16-bit by 32767, anything else raises
`ValueError("Unsupported sample width: ...")`. -/
def normalize_samples (sampwidth : ℕ) (raw : List ℤ) : Except Exn (List ℚ) :=
  if sampwidth = 4 then .ok (raw.map (fun s : ℤ => (s : ℚ) / 2147483647))
  else if sampwidth = 2 then .ok (raw.map (fun s : ℤ => (s : ℚ) / 32767))
  else .error (.valueError "Unsupported sample width")

/-- `audio.reshape(-1, channels)[:, 0]`: row `i` of the reshape starts at flat
index `i * channels`, so the first channel is every `channels`-th sample. -/
def first_channel (audio : List ℚ) (channels : ℕ) : List ℚ :=
  (List.range (audio.length / channels)).map (fun i => audio.getD (i * channels) 0)

/-- `frame_size = int(framerate * 0.03)` (30 ms per frame). At the sample
rates wave files carry the float product is exact, so this equals the
rational floor. -/
def frame_size (framerate : ℕ) : ℕ := framerate * 3 / 100

/-- The frame partition of `detect_speech`: `num_frames = len // frame_size`
frames, frame `i` being `audio_left[i*frame_size : (i+1)*frame_size]`. -/
def segment_frames (audio_left : List ℚ) (fsz : ℕ) : List (List ℚ) :=
  (List.range (audio_left.length / fsz)).map
    (fun i => (audio_left.drop (i * fsz)).take fsz)

/-- The part of `detect_speech` after normalization: reshape (whose failure on
a non-divisible length is the numpy exception), take the first channel, frame,
count speech-like frames and compare the ratio against 0.1; `frame_size == 0`
gives Python's `ZeroDivisionError` at `len // frame_size`. -/
def detect_speech_core (audio : List ℚ) (channels framerate : ℕ) :
    Except Exn Bool :=
  if channels = 0 ∨ ¬ channels ∣ audio.length then
    .error (.valueError "cannot reshape")
  else
    let audio_left := first_channel audio channels
    let fsz := frame_size framerate
    if fsz = 0 then .error (.valueError "integer division by zero")
    else
      let frames := segment_frames audio_left fsz
      let num_frames := frames.length
      let speech_frames := (frames.filter frame_speech_like).length
      let speech_ratio : ℚ :=
        if num_frames = 0 then 0 else (speech_frames : ℚ) / num_frames
      .ok (decide (speech_ratio > 1 / 10))

/-- `detect_speech` over the decoded integer samples of one wav file.
`raw` is the flat interleaved sample list `wave` produces. The zero-crossing
rate `compute_zcr` is computed in the source but never used in the decision
and is omitted. -/
def detect_speech (raw : List ℤ) (channels sampwidth framerate : ℕ) :
    Except Exn Bool :=
  match normalize_samples sampwidth raw with
  | .error e => .error e
  | .ok audio => detect_speech_core audio channels framerate

/-- The normalized sample list on the decodable widths (empty on the
unsupported-width branch; only used under decodability hypotheses). -/
def decoded_samples (sampwidth : ℕ) (raw : List ℤ) : List ℚ :=
  ((normalize_samples sampwidth raw).toOption).getD []

/-! ## Capture and segment assembly (src/amulet_main.py) -/

/-- `RATE = 48000`. -/
def RATE : ℕ := 48000

/-- `CHUNK = 1024`. -/
def CHUNK : ℕ := 1024

/-- `RECORD_SECONDS = 40`. -/
def RECORD_SECONDS : ℕ := 40

/-- `int(RATE / CHUNK * RECORD_SECONDS)`: 48000/1024 is a dyadic rational, so
the float computation is exact and truncation equals the rational floor. -/
def target_chunks : ℕ := (⌊(RATE : ℚ) / CHUNK * RECORD_SECONDS⌋).toNat

/-- The inner assembly loop of `main`: `for _ in range(n)` starting at pull
index `i`, `pop(timeout=5)` each iteration; a `some` chunk is appended, a
`none` (queue empty after the 5 s timeout) logs a warning and breaks. -/
def collect_frames {α : Type} (pulls : ℕ → Option α) : ℕ → ℕ → List α
  | 0, _ => []
  | n + 1, i =>
    match pulls i with
    | some d => d :: collect_frames pulls n (i + 1)
    | Option.none => []

/-- One segment assembly: the loop runs for `target_chunks` iterations from
pull 0. -/
def assemble_segment {α : Type} (pulls : ℕ → Option α) : List α :=
  collect_frames pulls target_chunks 0

/-- After the loop `save_audio(frames, audio)` runs unconditionally, so the
collected frames are always persisted. -/
def persisted_segment {α : Type} (pulls : ℕ → Option α) : Option (List α) :=
  some (assemble_segment pulls)

/-! ## Upload monitor (src/amulet_main.py `monitor_and_send`, src/util.py) -/

/-- One persisted wav file as `wave` reports it: header fields plus the flat
interleaved integer samples. -/
structure WavFile where
  channels : ℕ
  sampwidth : ℕ
  framerate : ℕ
  samples : List ℤ
  deriving DecidableEq, Repr

/-- The terminal outcome `monitor_and_send` gives one listed file in one
cycle. -/
inductive FileAction where
  | skipped      -- probe said offline: `continue`, file untouched
  | deleted      -- no speech: `os.remove(file_path)`
  | movedToSent  -- debug configuration: `shutil.move` into sent/ (archival)
  | uploaded     -- non-debug: `requests.post` (the caller then removes the file)
  deriving DecidableEq, Repr

/-- `util.is_connected`: `try: requests.head(..., timeout=5); return True`
with `except requests.ConnectionError: return False`. `probe` is the head
call's outcome. `requests.exceptions.ConnectTimeout` is a `ConnectionError`
and is caught, but `ReadTimeout` subclasses only `Timeout` and propagates. -/
def is_connected (probe : Except Exn Unit) : Except Exn Bool :=
  match probe with
  | .ok _ => .ok true
  | .error .connectionError => .ok false
  | .error e => .error e

/-- `send_audio` for one listed file: classify, delete a no-speech file, and
otherwise archive it into sent/ (debug configuration) or upload it. There is
no try/except on this path, so `detect_speech` exceptions propagate. -/
def send_audio (f : WavFile) (debug : Bool) : Except Exn FileAction :=
  match detect_speech f.samples f.channels f.sampwidth f.framerate with
  | .error e => .error e
  | .ok false => .ok .deleted
  | .ok true => if debug then .ok .movedToSent else .ok .uploaded

/-- One cycle of `monitor_and_send`'s for-loop over the sorted listing:
each file is probed via `is_connected`; an offline probe skips the file
(`continue`; it remains for a later cycle); otherwise `send_audio` decides its
fate. An uncaught exception aborts the loop — and, the loop being the thread's
whole body, kills the monitor thread; actions already performed remain. The
result is the per-file actions completed plus the escaping exception, if
any. -/
def monitor_cycle (files : List (String × WavFile)) (probe : String → Except Exn Unit)
    (debug : Bool) : List (String × FileAction) × Option Exn :=
  match files with
  | [] => ([], Option.none)
  | (name, f) :: rest =>
    match is_connected (probe name) with
    | .error e => ([], some e)
    | .ok false =>
      ((name, .skipped) :: (monitor_cycle rest probe debug).1,
        (monitor_cycle rest probe debug).2)
    | .ok true =>
      match send_audio f debug with
      | .error e => ([], some e)
      | .ok a =>
        ((name, a) :: (monitor_cycle rest probe debug).1,
          (monitor_cycle rest probe debug).2)

/-! ## Capture producer (`record_audio`) and detection loop -/

/-- The observable steps of one `record_audio` iteration. -/
inductive CaptureAct where
  | idleSleep     -- gate false: time.sleep(0.1) then re-check
  | readCall      -- stream.read(CHUNK, exception_on_overflow=False) issued
  | pushed        -- audio_queue.push(data)
  | backoffSleep  -- read raised: print the error, time.sleep(0.1)
  deriving DecidableEq, Repr

/-- One iteration of `record_audio`'s while-loop: gate false → idle-sleep and
re-check without touching the stream; gate true → read one chunk, push it on
success, log and back off on a read error. Nothing propagates. -/
def record_audio_iter (should_record : Bool) (read_result : Except Exn (List ℤ)) :
    List CaptureAct :=
  if !should_record then [.idleSleep]
  else
    match read_result with
    | .ok _ => [.readCall, .pushed]
    | .error _ => [.readCall, .backoffSleep]

/-- `_run_detection` loop body: `get_wear_status` wraps its own work in
try/except and returns the last status on failure, and the loop adds another
except with a 5 s backoff sleep; either way the loop continues with a defined
status and no exception escapes. -/
def run_detection_iter (sensor : Except Exn (ℚ × ℚ × ℚ × ℚ)) (last : WearState) :
    WearState :=
  match sensor with
  | .ok (a, g, t, s) => get_wear_status a g t s
  | .error _ => last

/-! ## Mode controller (src/oled_button.py) -/

/-- The observable emissions of the button-handling block. -/
inductive BtnEvent where
  | modeAdvanced (new_index : Fin 3)  -- mode_index = (mode_index + 1) % 3
  | statusShown                        -- the OLED draw in show_status
  | modeChangedSet                     -- self.mode_changed.set()
  deriving DecidableEq, Repr

/-- `show_status`: draws the mode screen, then ends with
`self.mode_changed.set()`. -/
def show_status_events : List BtnEvent := [.statusShown, .modeChangedSet]

/-- The press-handling block of `run` once the debounce wait has seen the
release: `self.mode_index = (self.mode_index + 1) % len(self.modes)` (Fin 3
addition), then `self.show_status()` — which itself calls
`self.mode_changed.set()` — then `self.mode_changed.set()` again. -/
def press_events (i : Fin 3) : Fin 3 × List BtnEvent :=
  (i + 1, .modeAdvanced (i + 1) :: (show_status_events ++ [.modeChangedSet]))

/-- One polling sample of `run`'s outer loop, as a state machine over
(mode_index, held): `held` records that a LOW was observed and the inner
debounce while-loop is still consuming samples; the press block fires at the
release sample. -/
def run_step (s : Fin 3 × Bool) (pressed : Bool) : (Fin 3 × Bool) × List BtnEvent :=
  match s.2, pressed with
  | false, false => ((s.1, false), [])
  | false, true => ((s.1, true), [])
  | true, true => ((s.1, true), [])
  | true, false => (((press_events s.1).1, false), (press_events s.1).2)

/-- `run` over a finite GPIO sample trace (`true` = LOW = pressed),
accumulating the emitted events. -/
def run_trace (s : Fin 3 × Bool) : List Bool → (Fin 3 × Bool) × List BtnEvent
  | [] => (s, [])
  | b :: rest =>
    ((run_trace (run_step s b).1 rest).1,
      (run_step s b).2 ++ (run_trace (run_step s b).1 rest).2)

end Amulet

namespace Amulet

/-! ## Claim theorems: wear classifier and orchestrator -/

/-- C1: for every input, `get_wear_status` returns the state given by the
first matching row of the §4.4 decision table. -/
theorem get_wear_status_matches_table (accel_std gyro_std temp slope : ℚ) :
    get_wear_status accel_std gyro_std temp slope =
      wear_table_spec accel_std gyro_std temp slope := by
  unfold get_wear_status wear_table_spec analyze_motion is_temp_consistent_with_skin
  by_cases hm : accel_std > 5 / 100 ∨ gyro_std > 2 / 10 <;>
    by_cases hw : temp > 55 / 2 <;>
      by_cases hs : slope > 1 / 10 <;>
        by_cases hs2 : slope < -(1 / 10) <;>
          simp [hm, hw, hs, hs2, ACC_STD_THRESHOLD, GYRO_STD_THRESHOLD,
            not_or, le_of_not_lt] at * <;>
          first
            | rfl
            | (exfalso; linarith)
            | simp_all

/-- C3: on every orchestrator cycle, the gate is true in mode ON (index 0),
equals the detector's boolean status in AUTO (index 1), false in OFF
(index 2); the detector is left active exactly when the mode is not OFF,
started on transition into ON/AUTO and stopped on transition into OFF; and
`bool_status_of` is true exactly for WORN_ACTIVE and POSSIBLY_WORN. -/
theorem orchestrator_gate_table (mode_idx : Fin 3) (w : WearState)
    (detection_active : Bool) :
    (mode_idx = 0 → (orchestrator_cycle mode_idx (bool_status_of w) detection_active).1 = true)
    ∧ (mode_idx = 1 → (orchestrator_cycle mode_idx (bool_status_of w) detection_active).1 =
        bool_status_of w)
    ∧ (mode_idx = 2 → (orchestrator_cycle mode_idx (bool_status_of w) detection_active).1 = false)
    ∧ (orchestrator_cycle mode_idx (bool_status_of w) detection_active).2.1 =
        decide (mode_idx ≠ 2)
    ∧ ((orchestrator_cycle mode_idx (bool_status_of w) detection_active).2.2 = .start ↔
        (mode_idx ≠ 2 ∧ detection_active = false))
    ∧ ((orchestrator_cycle mode_idx (bool_status_of w) detection_active).2.2 = .stop ↔
        (mode_idx = 2 ∧ detection_active = true))
    ∧ (bool_status_of w = true ↔ (w = .worn_active ∨ w = .possibly_worn)) := by
  revert mode_idx w detection_active
  decide

/-- Witness for C3 at mode ON, state WORN_ACTIVE, detector inactive. -/
theorem orchestrator_gate_table_witness :
    (orchestrator_cycle 0 (bool_status_of .worn_active) false).1 = true ∧
    (orchestrator_cycle 0 (bool_status_of .worn_active) false).2.2 = .start :=
  ⟨(orchestrator_gate_table 0 .worn_active false).1 rfl,
   ((orchestrator_gate_table 0 .worn_active false).2.2.2.2.1).2 ⟨by decide, rfl⟩⟩

/-- Unfolding lemma for `get_temp_slope` once the length guard has failed. -/
theorem get_temp_slope_eq_of_len (hist : List (ℚ × ℚ)) (h : ¬ hist.length < 2) :
    get_temp_slope hist =
      (if ((hist.getLast?.getD (0, 0)).1 - (hist.headD (0, 0)).1) / 60 = 0 then 0
       else ((hist.getLast?.getD (0, 0)).2 - (hist.headD (0, 0)).2) /
         (((hist.getLast?.getD (0, 0)).1 - (hist.headD (0, 0)).1) / 60)) := by
  unfold get_temp_slope
  rw [if_neg h]

/-- C10: `get_temp_slope` is total and division-safe — histories shorter than
2 entries give 0.0, equal oldest/latest timestamps give 0.0, and otherwise it
is (latest − oldest temperature) / elapsed minutes; and at slope 0 the
classifier can yield neither RECENTLY_REMOVED nor POSSIBLY_WORN. -/
theorem get_temp_slope_safe (hist : List (ℚ × ℚ)) :
    (hist.length < 2 → get_temp_slope hist = 0)
    ∧ (2 ≤ hist.length → (hist.getLast?.getD (0, 0)).1 = (hist.headD (0, 0)).1 →
        get_temp_slope hist = 0)
    ∧ (2 ≤ hist.length → (hist.getLast?.getD (0, 0)).1 ≠ (hist.headD (0, 0)).1 →
        get_temp_slope hist =
          ((hist.getLast?.getD (0, 0)).2 - (hist.headD (0, 0)).2) /
            (((hist.getLast?.getD (0, 0)).1 - (hist.headD (0, 0)).1) / 60))
    ∧ (∀ accel_std gyro_std temp : ℚ,
        get_wear_status accel_std gyro_std temp 0 ≠ .recently_removed ∧
        get_wear_status accel_std gyro_std temp 0 ≠ .possibly_worn) := by
  refine ⟨?_, ?_, ?_, ?_⟩
  · intro h
    simp [get_temp_slope, h]
  · intro h heq
    have hlt : ¬ hist.length < 2 := by omega
    rw [get_temp_slope_eq_of_len hist hlt, heq, sub_self, zero_div, if_pos rfl]
  · intro h hne
    have hlt : ¬ hist.length < 2 := by omega
    have hz : ¬ (((hist.getLast?.getD (0, 0)).1 - (hist.headD (0, 0)).1) / 60 = 0 : Prop) := by
      rw [div_eq_zero_iff, sub_eq_zero]
      push_neg
      exact ⟨hne, by norm_num⟩
    rw [get_temp_slope_eq_of_len hist hlt, if_neg hz]
  · intro a g t
    unfold get_wear_status
    have h1 : ¬ ((0 : ℚ) > 1 / 10) := by norm_num
    have h2 : ¬ ((0 : ℚ) < -(1 / 10)) := by norm_num
    have h3 : ¬ ((10 : ℚ) < 0) := by norm_num
    cases analyze_motion a g <;> cases is_temp_consistent_with_skin t <;>
      simp [h1, h2, h3]

/-- Witness for C10 on the empty history and on a concrete 2-entry history
with 60 elapsed seconds and a 6 °C rise. -/
theorem get_temp_slope_safe_witness :
    get_temp_slope [] = 0 ∧
    get_temp_slope [((0 : ℚ), (20 : ℚ)), ((60 : ℚ), (26 : ℚ))] =
      (26 - 20) / ((60 - 0) / 60) :=
  ⟨(get_temp_slope_safe []).1 (by decide),
   (get_temp_slope_safe _).2.2.1 (by decide) (by norm_num)⟩

/-! ## Claim theorems: speech classifier -/

/-- The mean square of a signal is nonnegative. -/
theorem compute_rms_sq_nonneg (f : List ℚ) : 0 ≤ compute_rms_sq f := by
  unfold compute_rms_sq list_mean
  split
  · exact le_refl 0
  · apply div_nonneg
    · apply List.sum_nonneg
      intro x hx
      obtain ⟨y, _, rfl⟩ := List.mem_map.mp hx
      exact sq_nonneg y
    · exact Nat.cast_nonneg _

/-- The squared-RMS test of `frame_speech_like` is the test the spec states:
RMS energy (the square root of the mean square) strictly above 0.0003, and
mean absolute difference strictly above 0.00006. -/
theorem frame_speech_like_iff (f : List ℚ) :
    frame_speech_like f = true ↔
      ((3 / 10000 : ℝ) < Real.sqrt ((compute_rms_sq f : ℚ) : ℝ) ∧
        (6 / 100000 : ℚ) < compute_delta f) := by
  have h0 : (0 : ℝ) ≤ (3 / 10000 : ℝ) := by norm_num
  have hcast : ((3 / 10000 : ℝ)) ^ 2 = ((energy_threshold ^ 2 : ℚ) : ℝ) := by
    rw [energy_threshold]; push_cast; ring
  rw [frame_speech_like, Bool.and_eq_true, decide_eq_true_eq, decide_eq_true_eq,
    Real.lt_sqrt h0, hcast]
  constructor
  · rintro ⟨h1, h2⟩
    exact ⟨by exact_mod_cast h1, by simpa [delta_threshold] using h2⟩
  · rintro ⟨h1, h2⟩
    exact ⟨by exact_mod_cast h1, by simpa [delta_threshold] using h2⟩

/-- `first_channel` only looks at indices that are multiples of the channel
count. -/
theorem first_channel_congr (a b : List ℚ) (ch : ℕ) (hlen : a.length = b.length)
    (hagree : ∀ i, i % ch = 0 → a.getD i 0 = b.getD i 0) :
    first_channel a ch = first_channel b ch := by
  unfold first_channel
  rw [hlen]
  apply List.map_congr_left
  intro i _
  exact hagree (i * ch) (Nat.mul_mod_left i ch)

/-- Unfolding `detect_speech` on the 32-bit width. -/
theorem detect_speech_eq_width4 (raw : List ℤ) (channels framerate : ℕ) :
    detect_speech raw channels 4 framerate =
      detect_speech_core (raw.map (fun s : ℤ => (s : ℚ) / 2147483647)) channels framerate := rfl

/-- Unfolding `detect_speech` on the 16-bit width. -/
theorem detect_speech_eq_width2 (raw : List ℤ) (channels framerate : ℕ) :
    detect_speech raw channels 2 framerate =
      detect_speech_core (raw.map (fun s : ℤ => (s : ℚ) / 32767)) channels framerate := rfl

/-- An unsupported sample width raises `ValueError` out of `detect_speech`. -/
theorem detect_speech_eq_unsupported (raw : List ℤ)
    (channels sampwidth framerate : ℕ) (h4 : sampwidth ≠ 4) (h2 : sampwidth ≠ 2) :
    detect_speech raw channels sampwidth framerate =
      .error (.valueError "Unsupported sample width") := by
  unfold detect_speech normalize_samples
  rw [if_neg h4, if_neg h2]

/-- `detect_speech_core` depends on its input only through its length and its
first channel. -/
theorem detect_speech_core_congr (audio audio' : List ℚ) (channels framerate : ℕ)
    (hlen : audio'.length = audio.length)
    (hfc : first_channel audio' channels = first_channel audio channels) :
    detect_speech_core audio' channels framerate =
      detect_speech_core audio channels framerate := by
  unfold detect_speech_core
  rw [hlen, hfc]

/-- Changing samples of any channel other than the first never changes the
result of `detect_speech` (for any width, errors included). -/
theorem detect_speech_first_channel_only (raw raw' : List ℤ)
    (channels sampwidth framerate : ℕ) (hlen : raw'.length = raw.length)
    (hagree : ∀ i, i % channels = 0 → raw'.getD i 0 = raw.getD i 0) :
    detect_speech raw' channels sampwidth framerate =
      detect_speech raw channels sampwidth framerate := by
  have key : ∀ g : ℤ → ℚ, g 0 = 0 →
      first_channel (raw'.map g) channels = first_channel (raw.map g) channels := by
    intro g hg
    apply first_channel_congr
    · simp [hlen]
    · intro i hi
      have e1 : (raw'.map g).getD i 0 = g (raw'.getD i 0) := by
        rw [← hg]; exact List.getD_map raw' 0 g
      have e2 : (raw.map g).getD i 0 = g (raw.getD i 0) := by
        rw [← hg]; exact List.getD_map raw 0 g
      rw [e1, e2, hagree i hi]
  by_cases h4 : sampwidth = 4
  · subst h4
    rw [detect_speech_eq_width4, detect_speech_eq_width4]
    exact detect_speech_core_congr _ _ _ _ (by simp [hlen])
      (key (fun s : ℤ => (s : ℚ) / 2147483647) (by norm_num))
  · by_cases h2 : sampwidth = 2
    · subst h2
      rw [detect_speech_eq_width2, detect_speech_eq_width2]
      exact detect_speech_core_congr _ _ _ _ (by simp [hlen])
        (key (fun s : ℤ => (s : ℚ) / 32767) (by norm_num))
    · rw [detect_speech_eq_unsupported raw channels sampwidth framerate h4 h2,
        detect_speech_eq_unsupported raw' channels sampwidth framerate h4 h2]

/-- On the success path `detect_speech_core` returns the ratio comparison. -/
theorem detect_speech_core_eq (audio : List ℚ) (channels framerate : ℕ)
    (hch : channels ≠ 0) (hdiv : channels ∣ audio.length)
    (hfs : frame_size framerate ≠ 0) :
    detect_speech_core audio channels framerate =
      .ok (decide ((if (segment_frames (first_channel audio channels)
            (frame_size framerate)).length = 0 then (0 : ℚ)
          else (((segment_frames (first_channel audio channels)
              (frame_size framerate)).filter frame_speech_like).length : ℚ) /
            ((segment_frames (first_channel audio channels)
              (frame_size framerate)).length)) > 1 / 10)) := by
  unfold detect_speech_core
  rw [if_neg (by push_neg; exact ⟨hch, hdiv⟩), if_neg hfs]

/-- The `num_frames == 0` guard of the source is immaterial to the comparison:
in that case the count is 0 and the bare ratio is 0 as well. -/
theorem ratio_guard_immaterial (cnt n : ℕ) :
    ((if n = 0 then (0 : ℚ) else (cnt : ℚ) / n) > 1 / 10) ↔ ((cnt : ℚ) / n > 1 / 10) := by
  by_cases h : n = 0
  · subst h
    simp
  · rw [if_neg h]

/-- C2: on every decodable segment (supported width, consistent channel count,
nonzero frame size) `detect_speech` raises nothing, and returns speech-present
iff strictly more than 10% of the 30 ms frames of the first channel are
speech-like; a frame is speech-like iff its RMS energy exceeds 0.0003 and its
mean absolute sample-to-sample difference exceeds 0.00006 (both strictly); and
samples outside the first channel never influence the result. -/
theorem detect_speech_spec (raw : List ℤ) (channels sampwidth framerate : ℕ)
    (hw : sampwidth = 4 ∨ sampwidth = 2) (hch : channels ≠ 0)
    (hdiv : channels ∣ raw.length) (hfs : frame_size framerate ≠ 0) :
    (∃ b, detect_speech raw channels sampwidth framerate = Except.ok b)
    ∧ (detect_speech raw channels sampwidth framerate = Except.ok true ↔
        (((segment_frames (first_channel (decoded_samples sampwidth raw) channels)
            (frame_size framerate)).filter frame_speech_like).length : ℚ) /
          ((segment_frames (first_channel (decoded_samples sampwidth raw) channels)
            (frame_size framerate)).length) > 1 / 10)
    ∧ (∀ f : List ℚ, frame_speech_like f = true ↔
        ((3 / 10000 : ℝ) < Real.sqrt ((compute_rms_sq f : ℚ) : ℝ) ∧
          (6 / 100000 : ℚ) < compute_delta f))
    ∧ (∀ raw' : List ℤ, raw'.length = raw.length →
        (∀ i, i % channels = 0 → raw'.getD i 0 = raw.getD i 0) →
        detect_speech raw' channels sampwidth framerate =
          detect_speech raw channels sampwidth framerate) := by
  have inv := fun raw' h1 h2 =>
    detect_speech_first_channel_only raw raw' channels sampwidth framerate h1 h2
  refine ⟨?_, ?_, frame_speech_like_iff, inv⟩ <;> rcases hw with h | h <;> subst h
  · have hdiv' : channels ∣ (raw.map (fun s : ℤ => (s : ℚ) / 2147483647)).length := by
      simpa using hdiv
    rw [detect_speech_eq_width4, detect_speech_core_eq _ _ _ hch hdiv' hfs]
    exact ⟨_, rfl⟩
  · have hdiv' : channels ∣ (raw.map (fun s : ℤ => (s : ℚ) / 32767)).length := by
      simpa using hdiv
    rw [detect_speech_eq_width2, detect_speech_core_eq _ _ _ hch hdiv' hfs]
    exact ⟨_, rfl⟩
  · have hdiv' : channels ∣ (raw.map (fun s : ℤ => (s : ℚ) / 2147483647)).length := by
      simpa using hdiv
    have hdec : decoded_samples 4 raw = raw.map (fun s : ℤ => (s : ℚ) / 2147483647) := rfl
    rw [detect_speech_eq_width4, detect_speech_core_eq _ _ _ hch hdiv' hfs, hdec]
    simp only [Except.ok.injEq, decide_eq_true_eq]
    exact ratio_guard_immaterial _ _
  · have hdiv' : channels ∣ (raw.map (fun s : ℤ => (s : ℚ) / 32767)).length := by
      simpa using hdiv
    have hdec : decoded_samples 2 raw = raw.map (fun s : ℤ => (s : ℚ) / 32767) := rfl
    rw [detect_speech_eq_width2, detect_speech_core_eq _ _ _ hch hdiv' hfs, hdec]
    simp only [Except.ok.injEq, decide_eq_true_eq]
    exact ratio_guard_immaterial _ _

/-- Witness for C2: a 16-bit mono six-sample alternating ±10000 signal at a
100 Hz frame rate (two 3-sample frames, both speech-like). -/
theorem detect_speech_spec_witness :
    detect_speech [10000, -10000, 10000, -10000, 10000, -10000] 1 2 100 =
        Except.ok true ↔
      (((segment_frames (first_channel
          (decoded_samples 2 [10000, -10000, 10000, -10000, 10000, -10000]) 1)
          (frame_size 100)).filter frame_speech_like).length : ℚ) /
        ((segment_frames (first_channel
          (decoded_samples 2 [10000, -10000, 10000, -10000, 10000, -10000]) 1)
          (frame_size 100)).length) > 1 / 10 :=
  (detect_speech_spec [10000, -10000, 10000, -10000, 10000, -10000] 1 2 100
    (Or.inr rfl) (by decide) (by decide) (by decide)).2.1

/-! ## Claim theorems: segment assembly -/

/-- When every pull in range succeeds, the loop collects all `n` chunks. -/
theorem collect_frames_length_all_some {α : Type} (pulls : ℕ → Option α) :
    ∀ n i : ℕ, (∀ j, j < n → (pulls (i + j)).isSome) →
      (collect_frames pulls n i).length = n := by
  intro n
  induction n with
  | zero => intro i _; rfl
  | succ m ih =>
    intro i h
    obtain ⟨d, hd⟩ := Option.isSome_iff_exists.mp (by simpa using h 0 (Nat.succ_pos m))
    have e1 : collect_frames pulls (m + 1) i = d :: collect_frames pulls m (i + 1) := by
      simp only [collect_frames]
      rw [hd]
    rw [e1, List.length_cons]
    have e2 := ih (i + 1) (fun j hj => by
      have e : i + 1 + j = i + (j + 1) := by omega
      rw [e]
      exact h (j + 1) (by omega))
    omega

/-- A `none` pull at position `k`, all earlier pulls succeeding, truncates the
collected list to `k` chunks. -/
theorem collect_frames_length_stops {α : Type} (pulls : ℕ → Option α) :
    ∀ n i k : ℕ, k < n → pulls (i + k) = Option.none →
      (∀ j, j < k → (pulls (i + j)).isSome) →
      (collect_frames pulls n i).length = k := by
  intro n
  induction n with
  | zero => intro i k hk _ _; exact absurd hk (Nat.not_lt_zero k)
  | succ m ih =>
    intro i k hk hnone hsome
    cases k with
    | zero =>
      have h0 : pulls i = Option.none := by simpa using hnone
      simp [collect_frames, h0]
    | succ k' =>
      obtain ⟨d, hd⟩ :=
        Option.isSome_iff_exists.mp (by simpa using hsome 0 (Nat.succ_pos k'))
      have e1 : collect_frames pulls (m + 1) i = d :: collect_frames pulls m (i + 1) := by
        simp only [collect_frames]
        rw [hd]
      rw [e1, List.length_cons]
      have e2 : (collect_frames pulls m (i + 1)).length = k' := by
        apply ih (i + 1) k' (by omega)
        · have e : i + 1 + k' = i + (k' + 1) := by omega
          rw [e]
          exact hnone
        · intro j hj
          have e : i + 1 + j = i + (j + 1) := by omega
          rw [e]
          exact hsome (j + 1) (by omega)
      omega

/-- C4: the per-segment target is int(RATE/CHUNK * RECORD_SECONDS) = 1875
chunks; under an uninterrupted supply the persisted segment holds exactly 1875
chunks; and a pull that times out at position k (a 5 s queue timeout, e.g.
after a gate drop stops the producer) still persists a segment, with k < 1875
chunks. -/
theorem segment_chunk_count {α : Type} (pulls : ℕ → Option α) :
    target_chunks = 1875
    ∧ ((∀ i, i < target_chunks → (pulls i).isSome) →
        (assemble_segment pulls).length = 1875
        ∧ (persisted_segment pulls).isSome = true)
    ∧ (∀ k, k < target_chunks → pulls k = Option.none →
        (∀ i, i < k → (pulls i).isSome) →
        (assemble_segment pulls).length = k
        ∧ (persisted_segment pulls).isSome = true) := by
  have ht : target_chunks = 1875 := by
    norm_num [target_chunks, RATE, CHUNK, RECORD_SECONDS]
    rfl
  refine ⟨ht, ?_, ?_⟩
  · intro h
    refine ⟨?_, rfl⟩
    have e := collect_frames_length_all_some pulls target_chunks 0
      (fun j hj => by simpa using h j hj)
    rw [assemble_segment, e, ht]
  · intro k hk hnone hsome
    refine ⟨?_, rfl⟩
    have e := collect_frames_length_stops pulls target_chunks 0 k hk
      (by simpa using hnone) (fun j hj => by simpa using hsome j hj)
    rw [assemble_segment, e]

/-- Witness for C4: an always-full queue yields a 1875-chunk segment; a queue
that times out at the fourth pull yields a persisted 3-chunk segment. -/
theorem segment_chunk_count_witness :
    (assemble_segment (fun _ => some (0 : ℕ))).length = 1875
    ∧ (assemble_segment (fun i => if i < 3 then some (0 : ℕ) else Option.none)).length = 3
    ∧ (persisted_segment (fun i => if i < 3 then some (0 : ℕ) else Option.none)).isSome
        = true :=
  ⟨((segment_chunk_count (fun _ => some (0 : ℕ))).2.1 (fun _ _ => rfl)).1,
   ((segment_chunk_count (fun i => if i < 3 then some (0 : ℕ) else Option.none)).2.2 3
      (by rw [(segment_chunk_count (fun i => if i < 3 then some (0 : ℕ) else Option.none)).1]
          omega)
      (by decide) (by decide)).1,
   ((segment_chunk_count (fun i => if i < 3 then some (0 : ℕ) else Option.none)).2.2 3
      (by rw [(segment_chunk_count (fun i => if i < 3 then some (0 : ℕ) else Option.none)).1]
          omega)
      (by decide) (by decide)).2⟩

/-! ## Claim theorems: upload monitor and error handling -/

/-- C5 counterexample: a one-file listing whose file has sample width 1 and a
succeeding probe makes the monitor cycle abort with the uncaught ValueError —
the per-file error is not a recoverable skip and the loop does not continue. -/
theorem malformed_segment_counterexample :
    monitor_cycle [("a.wav", ⟨1, 1, 48000, []⟩)] (fun _ => Except.ok ()) true =
      ([], some (Exn.valueError "Unsupported sample width")) := rfl

/-- C5 amended: whenever the head of the listing is reachable but has an
unsupported sample width, its decode error propagates out of `send_audio` and
aborts the whole monitor cycle — no file of the listing is processed, skipped
or deleted after it, and the monitor thread dies. -/
theorem malformed_segment_kills_monitor (name : String) (f : WavFile)
    (rest : List (String × WavFile)) (probe : String → Except Exn Unit)
    (debug : Bool) (hconn : probe name = Except.ok ())
    (h4 : f.sampwidth ≠ 4) (h2 : f.sampwidth ≠ 2) :
    monitor_cycle ((name, f) :: rest) probe debug =
      ([], some (Exn.valueError "Unsupported sample width")) := by
  have hds := detect_speech_eq_unsupported f.samples f.channels f.sampwidth
    f.framerate h4 h2
  simp [monitor_cycle, hconn, is_connected, send_audio, hds]

/-- Witness for the C5 amended theorem on a concrete 8-bit file. -/
theorem malformed_segment_kills_monitor_witness :
    monitor_cycle [("b.wav", ⟨1, 1, 48000, []⟩)] (fun _ => Except.ok ()) false =
      ([], some (Exn.valueError "Unsupported sample width")) :=
  malformed_segment_kills_monitor "b.wav" ⟨1, 1, 48000, []⟩ []
    (fun _ => Except.ok ()) false rfl (by decide) (by decide)

/-- C6: audio-read errors back off inside `record_audio`, sensor errors leave
the last wear status in place inside `_run_detection` — but a network probe
that raises `ReadTimeout` is not caught by `is_connected`'s
`except requests.ConnectionError` and kills the whole monitor cycle. -/
theorem transient_io_probe_timeout_fatal :
    (∀ e : Exn, record_audio_iter true (Except.error e) =
      [CaptureAct.readCall, CaptureAct.backoffSleep])
    ∧ (∀ (e : Exn) (last : WearState), run_detection_iter (Except.error e) last = last)
    ∧ is_connected (Except.error Exn.readTimeout) = Except.error Exn.readTimeout
    ∧ monitor_cycle [("c.wav", ⟨2, 2, 48000, []⟩)]
        (fun _ => Except.error Exn.readTimeout) true = ([], some Exn.readTimeout) :=
  ⟨fun _ => rfl, fun _ _ => rfl, rfl, rfl⟩

/-- Every action the monitor cycle records for a file whose probe failed with
a connection error is a skip. -/
theorem monitor_probe_fail_aux (probe : String → Except Exn Unit) (name : String)
    (hfail : probe name = Except.error Exn.connectionError) :
    ∀ (files : List (String × WavFile)) (debug : Bool) (a : FileAction),
      (name, a) ∈ (monitor_cycle files probe debug).1 → a = .skipped := by
  intro files
  induction files with
  | nil =>
    intro debug a h
    simp [monitor_cycle] at h
  | cons p rest ih =>
    intro debug a h
    obtain ⟨n, f⟩ := p
    simp only [monitor_cycle] at h
    cases hic : is_connected (probe n) with
    | error e =>
      rw [hic] at h
      simp at h
    | ok b =>
      cases b
      · rw [hic] at h
        simp only [List.mem_cons] at h
        rcases h with h1 | h1
        · exact (Prod.mk.injEq _ _ _ _ ▸ h1).2
        · exact ih debug a h1
      · rw [hic] at h
        cases hsa : send_audio f debug with
        | error e =>
          rw [hsa] at h
          simp at h
        | ok act =>
          rw [hsa] at h
          simp only [List.mem_cons] at h
          rcases h with h1 | h1
          · have hn : name = n := congrArg Prod.fst h1
            rw [← hn, hfail] at hic
            simp [is_connected] at hic
          · exact ih debug a h1

/-- C7: a file whose reachability probe fails in a cycle is neither deleted
nor archived nor uploaded in that cycle — it can only be skipped, and so
remains for a later cycle. -/
theorem probe_fail_file_untouched (files : List (String × WavFile))
    (probe : String → Except Exn Unit) (debug : Bool) (name : String)
    (hfail : probe name = Except.error Exn.connectionError) :
    (name, FileAction.deleted) ∉ (monitor_cycle files probe debug).1
    ∧ (name, FileAction.movedToSent) ∉ (monitor_cycle files probe debug).1
    ∧ (name, FileAction.uploaded) ∉ (monitor_cycle files probe debug).1 := by
  refine ⟨fun h => ?_, fun h => ?_, fun h => ?_⟩ <;>
    · have := monitor_probe_fail_aux probe name hfail files debug _ h
      simp at this

/-- Witness for C7 on a one-file listing with an offline probe. -/
theorem probe_fail_file_untouched_witness :
    ("x.wav", FileAction.deleted) ∉
      (monitor_cycle [("x.wav", ⟨2, 2, 48000, []⟩)]
        (fun _ => Except.error Exn.connectionError) true).1 :=
  (probe_fail_file_untouched [("x.wav", ⟨2, 2, 48000, []⟩)]
    (fun _ => Except.error Exn.connectionError) true "x.wav" rfl).1

/-! ## Claim theorems: capture producer -/

/-- C9: an iteration whose gate check yields false performs exactly one idle
sleep and issues no read; a read is issued exactly in the iterations whose
gate check yields true. -/
theorem capture_gate_discipline (should_record : Bool)
    (read_result : Except Exn (List ℤ)) :
    (should_record = false →
      record_audio_iter should_record read_result = [CaptureAct.idleSleep])
    ∧ (CaptureAct.readCall ∈ record_audio_iter should_record read_result ↔
        should_record = true) := by
  cases should_record <;> cases read_result <;> simp [record_audio_iter]

/-- Witness for C9 at a closed gate. -/
theorem capture_gate_discipline_witness :
    record_audio_iter false (Except.ok []) = [CaptureAct.idleSleep] :=
  (capture_gate_discipline false (Except.ok [])).1 rfl

/-! ## Claim theorems: mode controller -/

/-- While the debounce wait holds the button, nothing is emitted; the press
block fires once at the release sample. -/
theorem run_trace_held_release (m : ℕ) :
    ∀ j : Fin 3, run_trace (j, true) (List.replicate m true ++ [false]) =
      ((j + 1, false), (press_events j).2) := by
  induction m with
  | zero =>
    intro j
    simp [run_trace, run_step, press_events]
  | succ m ih =>
    intro j
    simp [List.replicate_succ, run_trace, run_step, ih j]

/-- C8 counterexample: on the two-sample trace of one clean press (one LOW,
then the release), the controller invokes `mode_changed.set()` twice, not
once — once inside `show_status` and once directly in `run`. -/
theorem mode_notified_twice_counterexample :
    ¬ ((run_trace (0, false) [true, false]).2.count BtnEvent.modeChangedSet = 1) := by
  decide

/-- C8 amended: each debounced press (any positive number of LOW samples
followed by the release) advances the mode index by exactly (i+1) mod 3 —
three presses return to the start, cycling ON→AUTO→OFF→ON — emits exactly one
mode advance, and invokes the mode-changed notification exactly twice (never
zero) per physical press. -/
theorem press_advances_mode_and_signals_twice (i : Fin 3) (k : ℕ) (hk : 1 ≤ k) :
    run_trace (i, false) (List.replicate k true ++ [false]) =
      ((i + 1, false), (press_events i).2)
    ∧ (press_events i).2.count BtnEvent.modeChangedSet = 2
    ∧ (press_events i).2.count (BtnEvent.modeAdvanced (i + 1)) = 1
    ∧ (run_trace (i, false) [true, false, true, false, true, false]).1.1 = i := by
  refine ⟨?_, ?_, ?_, ?_⟩
  · cases k with
    | zero => exact absurd hk (by decide)
    | succ m =>
      simp [List.replicate_succ, run_trace, run_step, run_trace_held_release m i]
  · revert i
    decide
  · revert i
    decide
  · revert i
    decide

/-- Witness for the C8 amended theorem: a single one-sample press from mode
ON. -/
theorem press_advances_mode_witness :
    run_trace ((0 : Fin 3), false) (List.replicate 1 true ++ [false]) =
      (((0 : Fin 3) + 1, false), (press_events 0).2) :=
  (press_advances_mode_and_signals_twice 0 1 (by decide)).1

end Amulet
